import Mathlib

/-!
Shallow embedding of the `agile` Android-layout lexer (files `android.py` and
`agilex.py`) and proofs about its unit conversion, resource resolution,
attribute inheritance, auto-sizing and element-parsing logic.

Python exceptions are embedded as an error type and fallible code returns
`Except PyErr _`.  Python floats are embedded as rationals; Python's `round`
(round half to even) is embedded as `pyRound`.  Python string operations are
embedded as functions on the character lists of Lean strings so that every
definition evaluates inside the kernel.
-/

deriving instance DecidableEq for Except

namespace Agile

/-- The Python exception classes raised or caught by the embedded code. -/
inductive PyErr where
  | keyError
  | attributeError
  | notImplementedError
  | valueError
  | typeError
  | assertionError
  | fileNotFoundError
deriving DecidableEq, Repr

/-- Python 3 `round` on a real argument: nearest integer, ties to even. -/
def pyRound (q : ℚ) : ℤ :=
  if q - ⌊q⌋ < 1/2 then ⌊q⌋
  else if 1/2 < q - ⌊q⌋ then ⌊q⌋ + 1
  else if ⌊q⌋ % 2 = 0 then ⌊q⌋ else ⌊q⌋ + 1

/-- `Dip.toInches` (android.py line 91): `self / float(160)`. -/
def dipToInches (d : ℤ) : ℚ := d / 160

/-- `Dip.toPoints` (android.py lines 94-97). -/
def dipToPoints (d : ℤ) : ℤ := pyRound (dipToInches d * 72)

/-- `Dip.fromInches` (android.py lines 112-114): `round(inches * 160)`. -/
def dipFromInches (inches : ℚ) : ℤ := pyRound (inches * 160)

/-- `Dip.fromPoints` (android.py lines 116-119): `inches = points / 72`. -/
def dipFromPoints (points : ℚ) : ℤ := dipFromInches (points / 72)

/-- `Dip.fromPicas` (android.py lines 121-124): `inches = picas / 6`. -/
def dipFromPicas (picas : ℚ) : ℤ := dipFromInches (picas / 6)

/-- The literal float `3.93700787402e-2` of `Dip.fromMillimeters`. -/
def mmToInchFactor : ℚ := 393700787402 / 10 ^ 13

/-- `Dip.fromMillimeters` (android.py lines 126-129). -/
def dipFromMillimeters (mm : ℚ) : ℤ := dipFromInches (mm * mmToInchFactor)

/-- `Dip.fromCentimeters` (android.py lines 131-134): `mm = cm * 10`. -/
def dipFromCentimeters (cm : ℚ) : ℤ := dipFromMillimeters (cm * 10)

/-- `Dip.fromPixels` (android.py lines 102-104): `round(pixels / densityScalar)`. -/
def dipFromPixels (pixels : ℤ) (densityScalar : ℚ) : ℤ :=
  pyRound (pixels / densityScalar)

/-- `l` starts with the pattern `p` (Python `str.startswith` on a slice). -/
def listStartsWith : List Char → List Char → Bool
  | _, [] => true
  | [], _ :: _ => false
  | a :: s, b :: p => a = b && listStartsWith s p

/-- `s` ends with the pattern `p` (Python `str.endswith`). -/
def listEndsWith (s p : List Char) : Bool :=
  listStartsWith s.reverse p.reverse

/-- The characters of `s` before the first occurrence of the pattern `pat`:
Python `s.partition(pat)[0]` (all of `s` when `pat` does not occur). -/
def beforeFirstOccurrence : List Char → List Char → List Char
  | [], _ => []
  | c :: rest, pat =>
    if listStartsWith (c :: rest) pat then []
    else c :: beforeFirstOccurrence rest pat

/-- Python `s.replace(" ", "")`: drop every space character (U+0020). -/
def removeSpaces (s : List Char) : List Char :=
  s.filter (fun c => !(c.toNat == 32))

/-- Helper of `parseIntChars`: accumulate decimal digits, any other character
is a failure. -/
def parseDigitsAux : List Char → ℕ → Option ℕ
  | [], acc => some acc
  | c :: rest, acc =>
    if c.isDigit then parseDigitsAux rest (acc * 10 + (c.toNat - 48))
    else none

/-- Decimal digit run, required nonempty. -/
def parseDigits : List Char → Option ℕ
  | [] => none
  | l => parseDigitsAux l 0

/-- Python `int(s)` on the strings the lexer feeds it: an optional sign
followed by decimal digits; anything else raises `ValueError` (returned as
`none` and turned into the error at the call sites). -/
def parseIntChars : List Char → Option ℤ
  | '-' :: rest => (parseDigits rest).map (fun n => -(n : ℤ))
  | '+' :: rest => (parseDigits rest).map (fun n => (n : ℤ))
  | l => (parseDigits l).map (fun n => (n : ℤ))

/-- The suffix dispatch table of `Dip.fromAndroid` (android.py lines 144-157),
in the dict's insertion order.  `dp`/`dip`/`sp`/`sip` pass the integer through
(`cls.__new__`), the rest call the unit converters on the parsed integer. -/
def dipDispatch : List (String × (ℤ → ℤ)) :=
  [ ("dp", fun n => n),
    ("dip", fun n => n),
    ("sp", fun n => n),
    ("sip", fun n => n),
    ("in", fun n => dipFromInches (n : ℚ)),
    ("mm", fun n => dipFromMillimeters (n : ℚ)),
    ("cm", fun n => dipFromCentimeters (n : ℚ)),
    ("pt", fun n => dipFromPoints (n : ℚ)),
    ("pc", fun n => dipFromPicas (n : ℚ)) ]

/-- `Dip.fromAndroid` (android.py lines 136-168): strips spaces, finds the
first table entry whose suffix matches, parses `s.partition(end)[0]` (the part
of the string before the first occurrence of that suffix) as an integer and
applies the entry's converter; raises `ValueError` when no suffix matches or
the numeric prefix is not an integer. -/
def dipFromAndroid (s : String) : Except PyErr ℤ :=
  let t := removeSpaces s.data
  match dipDispatch.find? (fun p => listEndsWith t p.1.data) with
  | some p =>
    match parseIntChars (beforeFirstOccurrence t p.1.data) with
    | some n => Except.ok (p.2 n)
    | none => Except.error PyErr.valueError
  | none => Except.error PyErr.valueError

lemma pyRound_of_floor_lt {q : ℚ} {f : ℤ} (h1 : ⌊q⌋ = f) (h2 : q - f < 1/2) :
    pyRound q = f := by
  simp only [pyRound, h1]
  rw [if_pos h2]

lemma pyRound_of_floor_gt {q : ℚ} {f : ℤ} (h1 : ⌊q⌋ = f) (h2 : 1/2 < q - f) :
    pyRound q = f + 1 := by
  simp only [pyRound, h1]
  rw [if_neg (by linarith), if_pos h2]

/-! ### XML soup -/

/-- A child object yielded by `soup.children`: either a navigable string (a
text node, which has no `.name`) or a tag with a name, attributes and child
objects. -/
inductive SoupChild where
  | text (s : String)
  | tag (name : String) (attrs : List (String × String)) (children : List SoupChild)

/-- `soup.get(key, None)`. -/
def lookupAttr (attrs : List (String × String)) (k : String) : Option String :=
  (attrs.find? (fun p => p.1 == k)).map (fun p => p.2)

/-- `soup[key]`: a mandatory subscript, `KeyError` when the attribute is
absent. -/
def subscriptAttr (attrs : List (String × String)) (k : String) :
    Except PyErr String :=
  match lookupAttr attrs k with
  | some v => Except.ok v
  | none => Except.error PyErr.keyError

/-- `soup(tagName, None)`, i.e. `find_all`: every descendant tag with the
given name, in document order. -/
def findAllTags : List SoupChild → String → List SoupChild
  | [], _ => []
  | SoupChild.text _ :: rest, n => findAllTags rest n
  | SoupChild.tag nm a k :: rest, n =>
    (if nm == n then [SoupChild.tag nm a k] else []) ++
      findAllTags k n ++ findAllTags rest n

/-- A Python value as stored in an element's attribute slots: `None`, a raw
attribute string, a pixel/dip integer, or a `find_all` result list (what
`LinearLayout.fromSoup` actually stores in `height`/`width`). -/
inductive PyVal where
  | pyNone
  | str (s : String)
  | int (n : ℤ)
  | tags (ts : List SoupChild)

/-! ### Device profile -/

/-- `AndroidDevice` (android.py lines 10-83).  The pygame font lookup of
`_textDimensions`, together with the constant default size/font pipeline of
`textDimensions` ("14sp" Droid Sans), is abstracted as the device's `measure`
function from the text to its rendered pixel (width, height). -/
structure Device where
  densityDpi : Option ℚ
  widthPixels : Option ℤ
  heightPixels : Option ℤ
  measure : String → ℤ × ℤ

/-- `AndroidDevice.densityScalar` (android.py lines 28-37): `densityDpi / 160`,
`ValueError` when `densityDpi` is unset. -/
def densityScalar (d : Device) : Except PyErr ℚ :=
  match d.densityDpi with
  | none => Except.error PyErr.valueError
  | some x => Except.ok (x / 160)

/-- `AndroidDevice.height` (android.py lines 43-45):
`Dip.fromPixels(heightPixels, densityScalar)`; an unset `heightPixels` is
Python `None` and `None / scalar` raises `TypeError`. -/
def deviceHeight (d : Device) : Except PyErr ℤ := do
  let sc ← densityScalar d
  match d.heightPixels with
  | some px => Except.ok (dipFromPixels px sc)
  | none => Except.error PyErr.typeError

/-- `AndroidDevice.width` (android.py lines 39-41). -/
def deviceWidth (d : Device) : Except PyErr ℤ := do
  let sc ← densityScalar d
  match d.widthPixels with
  | some px => Except.ok (dipFromPixels px sc)
  | none => Except.error PyErr.typeError

/-- `AndroidDevice.textDimensions` (android.py lines 47-83) on an attribute
value: measuring a non-string (e.g. Python `None`) raises `TypeError` inside
the font library. -/
def textDimensions (d : Device) (text : PyVal) : Except PyErr (ℤ × ℤ) :=
  match text with
  | PyVal.str s => Except.ok (d.measure s)
  | _ => Except.error PyErr.typeError

/-! ### Parents and attribute accessors -/

/-- The objects passed as `parent` in the lexer: Python `None`, the device
profile (substituted as synthetic root parent), or a `LinearLayout` under
construction whose `height`/`width` slots are already assigned. -/
inductive ParentObj where
  | pyNone
  | device (d : Device)
  | linear (height width : PyVal)

/-- The accessor `lambda x: x.height` applied to a parent object: `None` has
no attributes; the device computes its height in dip; a layout returns its
stored slot. -/
def getHeightAttr : ParentObj → Except PyErr PyVal
  | ParentObj.pyNone => Except.error PyErr.attributeError
  | ParentObj.device d => (deviceHeight d).map PyVal.int
  | ParentObj.linear h _ => Except.ok h

/-- The accessor `lambda x: x.width`. -/
def getWidthAttr : ParentObj → Except PyErr PyVal
  | ParentObj.pyNone => Except.error PyErr.attributeError
  | ParentObj.device d => (deviceWidth d).map PyVal.int
  | ParentObj.linear _ w => Except.ok w

/-- The accessor `lambda x: x.childGravity`: `AndroidDevice` has no such
attribute (`AttributeError`); a layout has the class default `None`
(android.py line 278). -/
def getChildGravityAttr : ParentObj → Except PyErr PyVal
  | ParentObj.pyNone => Except.error PyErr.attributeError
  | ParentObj.device _ => Except.error PyErr.attributeError
  | ParentObj.linear _ _ => Except.ok PyVal.pyNone

/-! ### Resource resolver -/

/-- An element of a parsed resource document: its tag name, its `name`
attribute and its text content (`.string`). -/
structure RElem where
  tag : String
  nameAttr : Option String
  content : Option String

/-- The resource directory: file name ↦ the parsed document's `<resources>`
element (`none` when the document has no such element); an absent file name
means `open` raises `FileNotFoundError`. -/
structure ResourceDir where
  files : List (String × Option (List RElem))

/-- Python `value.split(sep, 1)` for a one-character separator: the part
before the first separator and, when the separator occurs, the rest. -/
def splitOnceOn (c : Char) : List Char → List Char × Option (List Char)
  | [] => ([], none)
  | a :: rest =>
    if a = c then ([], some rest)
    else
      let r := splitOnceOn c rest
      (a :: r.1, r.2)

/-- `resource` (android.py lines 171-192; agilex.py lines 35-49 is the same
logic).  `None` passes through; a value starting with `"@+id"` trips the
assert; a value without the `"@+"` sentinel passes through.  For a reference:
line 186 `value.replace("@+", '', 1)` discards its result, so the string is
split with the sentinel still attached; the part before the first `/` plus
`".xml"` is opened in the resource directory; `rsoup.find(name=key)` asks
bs4 for a descendant *tag named* `key` (the keyword `name` is the tag-name
parameter of `find`, not an attribute filter) and `.string` of a failed find
(`None`) raises `AttributeError`. -/
def resource (value : Option String) (res : ResourceDir) :
    Except PyErr (Option String) :=
  match value with
  | none => Except.ok none
  | some v =>
    if listStartsWith v.data "@+id".data then Except.error PyErr.assertionError
    else if !listStartsWith v.data "@+".data then Except.ok (some v)
    else
      match splitOnceOn '/' v.data with
      | (_, none) => Except.error PyErr.valueError
      | (fn, some key) =>
        let filename := String.mk (fn ++ ".xml".data)
        match res.files.find? (fun p => p.1 == filename) with
        | none => Except.error PyErr.fileNotFoundError
        | some p =>
          match p.2 with
          | none => Except.error PyErr.attributeError
          | some elems =>
            match elems.find? (fun e => e.tag == String.mk key) with
            | none => Except.error PyErr.attributeError
            | some e => Except.ok e.content

/-! ### Attribute inheritance -/

/-- `value in ("match_parent", "fill_parent")`. -/
def isInheritSentinel : PyVal → Bool
  | PyVal.str s => s == "match_parent" || s == "fill_parent"
  | _ => false

/-- `inheritable` (agilex.py lines 52-60): resolve the two sentinels through
the parent accessor, pass any other value through unchanged. -/
def inheritable (value : PyVal) (parent : ParentObj)
    (getFn : ParentObj → Except PyErr PyVal) : Except PyErr PyVal :=
  if isInheritSentinel value then getFn parent
  else Except.ok value

/-- `inheritProperty` (android.py lines 195-204): the strict variant, raising
`AttributeError` ("value is unique") for any non-sentinel value. -/
def inheritProperty (value : PyVal) (parent : ParentObj)
    (getFn : ParentObj → Except PyErr PyVal) : Except PyErr PyVal :=
  if isInheritSentinel value then getFn parent
  else Except.error PyErr.attributeError

/-! ### Auto-sizing -/

/-- `wrappable` (android.py lines 207-230): when either dimension is
`"wrap_content"` the text is measured on the device (`None` has no
`textDimensions`: `AttributeError`), a `wrap_content` height becomes
`height_text * 3` and a `wrap_content` width becomes
`width_text + height_text`; otherwise both strings pass through. -/
def wrappable (width height : String) (text : PyVal) (device : Option Device) :
    Except PyErr (PyVal × PyVal) :=
  if width == "wrap_content" || height == "wrap_content" then
    match (match device with
           | none => Except.error PyErr.attributeError
           | some d => textDimensions d text) with
    | Except.error e => Except.error e
    | Except.ok dims =>
      let h := if height == "wrap_content" then PyVal.int (dims.2 * 3)
               else PyVal.str height
      let w := if width == "wrap_content" then PyVal.int (dims.1 + dims.2)
               else PyVal.str width
      Except.ok (w, h)
  else Except.ok (PyVal.str width, PyVal.str height)

/-- `Dip.fromAndroid` applied to an arbitrary attribute value: line 140 calls
`s.replace`, so a non-string argument (Python `None`, or an `int` produced by
`wrappable`) raises `AttributeError` before any parsing happens. -/
def dipFromAndroidVal : PyVal → Except PyErr ℤ
  | PyVal.str s => dipFromAndroid s
  | _ => Except.error PyErr.attributeError

/-! ### Elements and their constructors -/

/-- A value produced by element construction: Python `None` (what
`UnknownObject.fromSoup` actually returns, since it never returns the
instance it builds), a `Button` instance, or a `LinearLayout` instance. -/
inductive Elem where
  | pyNone
  | button (id : String) (text : Option String) (width height gravity : PyVal)
  | linearLayout (id : Option String) (height width : PyVal)
      (children : List Elem)

/-- `FrameLayout.fromSoup` (android.py lines 346-350): `NotImplementedError`. -/
def frameLayoutFromSoup (_parent : ParentObj) (_device : Option Device)
    (_res : ResourceDir) (_soup : SoupChild) : Except PyErr Elem :=
  Except.error PyErr.notImplementedError

/-- `TableLayout.fromSoup` (android.py lines 367-371): `NotImplementedError`. -/
def tableLayoutFromSoup (_parent : ParentObj) (_device : Option Device)
    (_res : ResourceDir) (_soup : SoupChild) : Except PyErr Elem :=
  Except.error PyErr.notImplementedError

/-- `TableRow.fromSoup` (android.py lines 379-383): `NotImplementedError`. -/
def tableRowFromSoup (_parent : ParentObj) (_device : Option Device)
    (_res : ResourceDir) (_soup : SoupChild) : Except PyErr Elem :=
  Except.error PyErr.notImplementedError

/-- `RelativeLayout.fromSoup` (android.py lines 391-395):
`NotImplementedError`. -/
def relativeLayoutFromSoup (_parent : ParentObj) (_device : Option Device)
    (_res : ResourceDir) (_soup : SoupChild) : Except PyErr Elem :=
  Except.error PyErr.notImplementedError

/-- `UnknownObject.fromSoup` (android.py lines 415-453).  Width and height are
mandatory subscripts (width first); a present `android:text` triggers a
`wrappable` call whose result is discarded (only a raised `KeyError` is
caught); each dimension is resolved by `inheritProperty`, an `AttributeError`
falling back to `Dip.fromAndroid` and a `KeyError` leaving the slot at the
class default `None`; and the function never returns the instance it builds —
it falls off the end, returning Python `None` (`Elem.pyNone`). -/
def unknownObjectFromSoup (parent : ParentObj) (device : Option Device)
    (attrs : List (String × String)) : Except PyErr Elem := do
  let width ← subscriptAttr attrs "android:layout_width"
  let height ← subscriptAttr attrs "android:layout_height"
  match lookupAttr attrs "android:text" with
  | none => pure ()
  | some t =>
    match wrappable width height (PyVal.str t) device with
    | Except.ok _ => pure ()
    | Except.error PyErr.keyError => pure ()
    | Except.error e => throw e
  let _newHeight ← match inheritProperty (PyVal.str height) parent getHeightAttr with
    | Except.ok v => Except.ok v
    | Except.error PyErr.attributeError => (dipFromAndroid height).map PyVal.int
    | Except.error PyErr.keyError => Except.ok PyVal.pyNone
    | Except.error e => Except.error e
  let _newWidth ← match inheritProperty (PyVal.str width) parent getWidthAttr with
    | Except.ok v => Except.ok v
    | Except.error PyErr.attributeError => (dipFromAndroid width).map PyVal.int
    | Except.error PyErr.keyError => Except.ok PyVal.pyNone
    | Except.error e => Except.error e
  pure Elem.pyNone

/-- `Button.fromSoup` (android.py lines 460-492).  The id is a mandatory
subscript; `text` goes through the resource resolver; `wrappable` may replace
the raw dimension strings with pixel ints; width, then height, then gravity
are resolved through `inheritProperty` with `AttributeError` falling back to
unit conversion (resp. the literal gravity default); the gravity resolution
passes `width` to `inheritProperty` — the copy-paste slip of line 488 is
embedded as written. -/
def buttonFromSoup (parent : ParentObj) (device : Option Device)
    (res : ResourceDir) (attrs : List (String × String)) :
    Except PyErr Elem := do
  let id ← subscriptAttr attrs "android:id"
  let text ← resource (lookupAttr attrs "android:text") res
  let width0 ← subscriptAttr attrs "android:layout_width"
  let height0 ← subscriptAttr attrs "android:layout_height"
  let wh ← wrappable width0 height0
    (match text with | some s => PyVal.str s | none => PyVal.pyNone) device
  let width := wh.1
  let height := wh.2
  let newWidth ← match inheritProperty width parent getWidthAttr with
    | Except.ok v => Except.ok v
    | Except.error PyErr.attributeError => (dipFromAndroidVal width).map PyVal.int
    | Except.error e => Except.error e
  let newHeight ← match inheritProperty height parent getHeightAttr with
    | Except.ok v => Except.ok v
    | Except.error PyErr.attributeError => (dipFromAndroidVal height).map PyVal.int
    | Except.error e => Except.error e
  let gravity := (lookupAttr attrs "android:layout_gravity").getD "match_parent"
  let newGravity ← match inheritProperty width parent getChildGravityAttr with
    | Except.ok v => Except.ok v
    | Except.error PyErr.attributeError => Except.ok (PyVal.str gravity)
    | Except.error e => Except.error e
  pure (Elem.button id text newWidth newHeight newGravity)

/-- `AndroidObject.dispatchFromSoup` (android.py lines 402-412): the
exact-match table `{"Button": Button}` with `UnknownObject` as the `get`
fallback; the chosen class's `fromSoup` is called on the node (neither
constructor reads the node's children, so only name and attributes are
passed). -/
def androidObjectDispatchFromSoup (parent : ParentObj) (device : Option Device)
    (res : ResourceDir) (name : String) (attrs : List (String × String)) :
    Except PyErr Elem :=
  if name == "Button" then buttonFromSoup parent device res attrs
  else unknownObjectFromSoup parent device attrs

/-- Lines 251-252 of `AndroidElement.dispatchFromSoup`:
`if parent is None: parent = device`. -/
def defaultParentToDevice (parent : ParentObj) (device : Option Device) :
    ParentObj :=
  match parent with
  | ParentObj.pyNone =>
    match device with
    | some d => ParentObj.device d
    | none => ParentObj.pyNone
  | p => p

mutual

/-- `AndroidElement.dispatchFromSoup` (android.py lines 246-259) with
`AndroidLayout.dispatchFromSoup` (lines 280-292) and `LinearLayout.fromSoup`
(lines 316-330) inlined into the layout branch.  A text node has no `.name`
(`AttributeError`); a `None` parent is replaced by the device; a tag name
ending in `"Layout"` goes through the layout dispatch dict (a plain
subscript, so an unlisted `...Layout` name raises `KeyError`); anything else
goes to the object dispatcher.  `LinearLayout.fromSoup` reads `android:id`
with a default, stores the `find_all` results that lines 323-324 actually
produce for `height`/`width`, and parses its children with itself as the
common parent. -/
def elementDispatchFromSoup (device : Option Device) (res : ResourceDir)
    (parent : ParentObj) (soup : SoupChild) : Except PyErr Elem :=
  match soup with
  | SoupChild.text _ => Except.error PyErr.attributeError
  | SoupChild.tag name attrs kids =>
    let parent := defaultParentToDevice parent device
    if listEndsWith name.data "Layout".data then
      if name == "LinearLayout" then
        let id := lookupAttr attrs "android:id"
        let height := PyVal.tags (findAllTags kids "android:layout_height")
        let width := PyVal.tags (findAllTags kids "android:layout_width")
        match findChildren device res (ParentObj.linear height width) kids with
        | Except.ok children =>
          Except.ok (Elem.linearLayout id height width children)
        | Except.error e => Except.error e
      else if name == "TableLayout" then
        tableLayoutFromSoup parent device res (SoupChild.tag name attrs kids)
      else if name == "FrameLayout" then
        frameLayoutFromSoup parent device res (SoupChild.tag name attrs kids)
      else if name == "RelativeLayout" then
        relativeLayoutFromSoup parent device res (SoupChild.tag name attrs kids)
      else Except.error PyErr.keyError
    else androidObjectDispatchFromSoup parent device res name attrs
termination_by sizeOf soup

/-- `findChildren` (android.py lines 294-305): dispatch each soup child and
append the result, catching `AttributeError` (string children) and
`NotImplementedError` (unsupported layouts) per child; any other exception
propagates and aborts the remaining siblings. -/
def findChildren (device : Option Device) (res : ResourceDir)
    (commonParent : ParentObj) (kids : List SoupChild) :
    Except PyErr (List Elem) :=
  match kids with
  | [] => Except.ok []
  | k :: rest =>
    match elementDispatchFromSoup device res commonParent k with
    | Except.ok e =>
      match findChildren device res commonParent rest with
      | Except.ok l => Except.ok (e :: l)
      | Except.error e2 => Except.error e2
    | Except.error PyErr.attributeError => findChildren device res commonParent rest
    | Except.error PyErr.notImplementedError => findChildren device res commonParent rest
    | Except.error e => Except.error e
termination_by sizeOf kids

end

/-! ### The TableLayout children property -/

/-- The runtime type of a value assigned into a `TableLayout`'s children
sequence, as tested by `type(child) is TableRow` (android.py line 362). -/
inductive ChildVal where
  | tableRow
  | other
deriving DecidableEq

/-- A Python `property` as the descriptor protocol sees it for the
`TableLayout` class: an optional setter taking the assigned sequence. -/
structure PyProperty where
  fset : Option (List ChildVal → Except PyErr Unit)

/-- Assigning an attribute that resolves to a property on the class: a
property without a setter raises `AttributeError` ("can't set attribute"). -/
def pySetThroughProperty (p : PyProperty) (xs : List ChildVal) :
    Except PyErr Unit :=
  match p.fset with
  | none => Except.error PyErr.attributeError
  | some f => f xs

/-- The class attribute `children = property(lambda self: self._children)`
(android.py line 358): a getter-only property. -/
def childrenProperty : PyProperty := { fset := none }

/-- The setter function of android.py lines 360-365: `TypeError` when some
child is not a `TableRow`, otherwise `self.children = children`, which goes
through the getter-only `children` property. -/
def underscoreSetterBody (children : List ChildVal) : Except PyErr Unit :=
  if children.all (fun c => c == ChildVal.tableRow) then
    pySetThroughProperty childrenProperty children
  else Except.error PyErr.typeError

/-- The class attribute `_`: the decorator `@children.setter` was applied to
a function named `_` (android.py lines 360-361), so the property carrying the
validating setter is bound to the name `_`, not to `children`. -/
def underscoreProperty : PyProperty := { fset := some underscoreSetterBody }

/-- The assignment `tableLayout.children = xs`. -/
def tableLayoutSetChildren (xs : List ChildVal) : Except PyErr Unit :=
  pySetThroughProperty childrenProperty xs

/-- The assignment `tableLayout._ = xs`. -/
def tableLayoutSetUnderscore (xs : List ChildVal) : Except PyErr Unit :=
  pySetThroughProperty underscoreProperty xs

/-! ### Concrete test fixtures -/

/-- An empty resource directory, for nodes without resource references. -/
def emptyResourceDir : ResourceDir := ⟨[]⟩

/-- The resource directory of the spec's example: a `strings.xml` whose
`<resources>` element contains `<string name="hello">Hi</string>`; a
`string.xml` with the same content is also present, so failures cannot be
blamed on the plural file name. -/
def demoResourceDir : ResourceDir :=
  ⟨[("strings.xml", some [⟨"string", some "hello", some "Hi"⟩]),
    ("string.xml", some [⟨"string", some "hello", some "Hi"⟩])]⟩

/-- A 160-dpi device measuring every text as 100×20 pixels. -/
def demoDevice : Device := ⟨some 160, some 320, some 480, fun _ => (100, 20)⟩

/-! ### Claims -/

/-- C1: the claim says that for `"@+<type>/<key>"` with type ≠ `id`,
`resource` strips the `"@+"` sentinel, opens `<resourceDir>/<type>.xml` and
returns the text of the element whose name is `key`, so that
`resolve("@+string/hello", dir) = "Hi"`.  The code instead raises
`FileNotFoundError` on exactly that input: line 186 discards the result of
`value.replace("@+", '', 1)`, so the sentinel is never stripped and the code
tries to open `"@+string.xml"`, which exists in no resource directory that
follows the spec's naming scheme. -/
theorem c1_resource_bug :
    resource (some "@+string/hello") demoResourceDir =
      Except.error PyErr.fileNotFoundError := rfl

/-- C2: the attribute-inheritance resolver returns `accessor(parent)` when
the value is the literal `"match_parent"` or `"fill_parent"`, and returns the
value itself unchanged for every other value. -/
theorem c2_inheritable_spec (value : PyVal) (parent : ParentObj)
    (getFn : ParentObj → Except PyErr PyVal) :
    ((value = PyVal.str "match_parent" ∨ value = PyVal.str "fill_parent") →
      inheritable value parent getFn = getFn parent) ∧
    (value ≠ PyVal.str "match_parent" → value ≠ PyVal.str "fill_parent" →
      inheritable value parent getFn = Except.ok value) := by
  constructor
  · rintro (rfl | rfl) <;> simp [inheritable, isInheritSentinel]
  · intro h1 h2
    cases value with
    | str s =>
      have hs1 : s ≠ "match_parent" := fun h => h1 (by rw [h])
      have hs2 : s ≠ "fill_parent" := fun h => h2 (by rw [h])
      simp [inheritable, isInheritSentinel, hs1, hs2]
    | pyNone => simp [inheritable, isInheritSentinel]
    | int n => simp [inheritable, isInheritSentinel]
    | tags ts => simp [inheritable, isInheritSentinel]

/-- Witness for C2: `resolveInherited("48dp", parent, getHeight) = "48dp"`. -/
theorem c2_witness :
    inheritable (PyVal.str "48dp")
        (ParentObj.linear (PyVal.str "ph") (PyVal.str "pw")) getHeightAttr =
      Except.ok (PyVal.str "48dp") :=
  (c2_inheritable_spec _ _ _).2 (by simp) (by simp)

/-- C3: the claim says that for a node whose tag neither ends in `"Layout"`
nor is `"Button"`, the Object dispatcher returns an `UnknownObject` instance
and that one unknown tag never aborts parsing of its siblings.  The code
violates both: (a) `UnknownObject.fromSoup` builds its instance but never
returns it, so dispatching an `ImageView` with plain dimensions yields Python
`None`; (b) `UnknownObject.fromSoup` reads `android:layout_width` by
mandatory subscript, so an attribute-less `ImageView` raises `KeyError`,
which `findChildren` does not catch — the sibling `Button` is never parsed. -/
theorem c3_unknownObject_bug :
    androidObjectDispatchFromSoup ParentObj.pyNone none emptyResourceDir
        "ImageView"
        [("android:layout_width", "48dp"), ("android:layout_height", "48dp")] =
      Except.ok Elem.pyNone ∧
    findChildren none emptyResourceDir ParentObj.pyNone
        [SoupChild.tag "ImageView" [] [],
         SoupChild.tag "Button"
           [("android:id", "@+id/b"), ("android:layout_width", "48dp"),
            ("android:layout_height", "48dp")] []] =
      Except.error PyErr.keyError := by
  constructor
  · simp [findChildren, elementDispatchFromSoup, androidObjectDispatchFromSoup,
      unknownObjectFromSoup, buttonFromSoup, subscriptAttr, lookupAttr,
      listEndsWith, listStartsWith, inheritProperty, isInheritSentinel,
      getHeightAttr, getWidthAttr, getChildGravityAttr, dipFromAndroid,
      dipFromAndroidVal, dipDispatch, removeSpaces, parseIntChars, parseDigits,
      parseDigitsAux, beforeFirstOccurrence, resource, wrappable,
      textDimensions, defaultParentToDevice, findAllTags, Bind.bind,
      Except.bind, Except.map, Pure.pure, Except.pure]
  · simp [findChildren, elementDispatchFromSoup, androidObjectDispatchFromSoup,
      unknownObjectFromSoup, buttonFromSoup, subscriptAttr, lookupAttr,
      listEndsWith, listStartsWith, inheritProperty, isInheritSentinel,
      getHeightAttr, getWidthAttr, getChildGravityAttr, dipFromAndroid,
      dipFromAndroidVal, dipDispatch, removeSpaces, parseIntChars, parseDigits,
      parseDigitsAux, beforeFirstOccurrence, resource, wrappable,
      textDimensions, defaultParentToDevice, findAllTags, Bind.bind,
      Except.bind, Except.map, Pure.pure, Except.pure]

/-- C4: `parseLength` converts by the fixed table — the `dp`/`dip`/`sp`/`sip`
suffixes pass the integer prefix through as dip; inches map to
`round(inches*160)`; millimeters go through inches with the factor
0.0393700787402; centimeters are 10 millimeters; points are inches/72; picas
are inches/6 — and the spec's examples evaluate as claimed. -/
theorem c4_parseLength_table :
    (∀ q : ℚ, dipFromInches q = pyRound (q * 160)) ∧
    (∀ q : ℚ, dipFromMillimeters q =
      dipFromInches (q * (393700787402 / 10 ^ 13))) ∧
    (∀ q : ℚ, dipFromCentimeters q = dipFromMillimeters (q * 10)) ∧
    (∀ q : ℚ, dipFromPoints q = dipFromInches (q / 72)) ∧
    (∀ q : ℚ, dipFromPicas q = dipFromInches (q / 6)) ∧
    dipFromAndroid "16dp" = Except.ok 16 ∧
    dipFromAndroid "16dip" = Except.ok 16 ∧
    dipFromAndroid "16sp" = Except.ok 16 ∧
    dipFromAndroid "16sip" = Except.ok 16 ∧
    dipFromAndroid "1in" = Except.ok 160 ∧
    dipFromAndroid "10mm" = Except.ok 63 ∧
    dipFromAndroid "72pt" = Except.ok 160 := by
  refine ⟨fun q => rfl, fun q => rfl, fun q => rfl, fun q => rfl, fun q => rfl,
    rfl, rfl, rfl, rfl, ?_, ?_, ?_⟩
  · have h : dipFromAndroid "1in" = Except.ok (dipFromInches ((1 : ℤ) : ℚ)) := rfl
    rw [h, dipFromInches,
      pyRound_of_floor_lt (f := 160) (by norm_num) (by norm_num)]
  · have h : dipFromAndroid "10mm" =
        Except.ok (dipFromMillimeters ((10 : ℤ) : ℚ)) := rfl
    rw [h, dipFromMillimeters, dipFromInches, mmToInchFactor,
      pyRound_of_floor_gt (f := 62) (by norm_num) (by norm_num)]
    norm_num
  · have h : dipFromAndroid "72pt" =
        Except.ok (dipFromPoints ((72 : ℤ) : ℚ)) := rfl
    rw [h, dipFromPoints, dipFromInches,
      pyRound_of_floor_lt (f := 160) (by norm_num) (by norm_num)]

/-- C5: when height is `"wrap_content"` the auto-sizing algorithm resolves
the height to 3 times the measured text height, and when width is
`"wrap_content"` it resolves the width to the measured text width plus the
measured text height. -/
theorem c5_wrappable_spec (width height text : String) (d : Device) :
    (height = "wrap_content" →
      (wrappable width height (PyVal.str text) (some d)).map Prod.snd =
        Except.ok (PyVal.int ((d.measure text).2 * 3))) ∧
    (width = "wrap_content" →
      (wrappable width height (PyVal.str text) (some d)).map Prod.fst =
        Except.ok (PyVal.int ((d.measure text).1 + (d.measure text).2))) := by
  constructor
  · rintro rfl
    simp [wrappable, textDimensions, Except.map]
  · rintro rfl
    simp [wrappable, textDimensions, Except.map]

/-- Witness for C5: a device measuring text height 20 px resolves a
`wrap_content` height to 60 px. -/
theorem c5_witness :
    (wrappable "100dp" "wrap_content" (PyVal.str "Hi")
        (some demoDevice)).map Prod.snd = Except.ok (PyVal.int 60) := by
  have h := (c5_wrappable_spec "100dp" "wrap_content" "Hi" demoDevice).1 rfl
  simpa [demoDevice] using h

/-- C6 counterexample: the claim says a `TableRow` child fails with
`NotSupported`, is skipped, and its siblings are still parsed.  In the code a
`TableRow` tag does not end in `"Layout"`, so it is dispatched as an unknown
object; its mandatory `android:layout_width` subscript raises `KeyError`,
which propagates past the per-child handler — the sibling `Button` is never
parsed. -/
theorem c6_counterexample :
    findChildren none emptyResourceDir ParentObj.pyNone
        [SoupChild.tag "TableRow" [] [],
         SoupChild.tag "Button"
           [("android:id", "@+id/ok"), ("android:layout_width", "48dp"),
            ("android:layout_height", "48dp")] []] =
      Except.error PyErr.keyError := by
  simp [findChildren, elementDispatchFromSoup, androidObjectDispatchFromSoup,
    unknownObjectFromSoup, buttonFromSoup, subscriptAttr, lookupAttr,
    listEndsWith, listStartsWith, inheritProperty, isInheritSentinel,
    getHeightAttr, getWidthAttr, getChildGravityAttr, dipFromAndroid,
    dipFromAndroidVal, dipDispatch, removeSpaces, parseIntChars, parseDigits,
    parseDigitsAux, beforeFirstOccurrence, resource, wrappable,
    textDimensions, defaultParentToDevice, findAllTags, Bind.bind,
    Except.bind, Except.map, Pure.pure, Except.pure]

/-- C6 (amended): constructing a `FrameLayout`, `TableLayout`, `TableRow` or
`RelativeLayout` element via `fromSoup` always fails with `NotSupported`, and
when a `FrameLayout`, `TableLayout` or `RelativeLayout` node occurs as a
child during child parsing that child is skipped and the remaining siblings
are still parsed; a `TableRow` node, whose tag does not end in `"Layout"`,
never reaches its constructor during child parsing — it is routed to the
Object dispatcher instead. -/
theorem c6_notSupported_amended (p : ParentObj) (dev : Option Device)
    (res : ResourceDir) (soup : SoupChild) (name : String)
    (attrs : List (String × String)) (kids rest : List SoupChild)
    (commonParent : ParentObj) :
    frameLayoutFromSoup p dev res soup =
      Except.error PyErr.notImplementedError ∧
    tableLayoutFromSoup p dev res soup =
      Except.error PyErr.notImplementedError ∧
    tableRowFromSoup p dev res soup =
      Except.error PyErr.notImplementedError ∧
    relativeLayoutFromSoup p dev res soup =
      Except.error PyErr.notImplementedError ∧
    ((name = "FrameLayout" ∨ name = "TableLayout" ∨ name = "RelativeLayout") →
      findChildren dev res commonParent
          (SoupChild.tag name attrs kids :: rest) =
        findChildren dev res commonParent rest) := by
  refine ⟨rfl, rfl, rfl, rfl, ?_⟩
  rintro (rfl | rfl | rfl) <;>
    · rw [findChildren]
      simp [elementDispatchFromSoup, frameLayoutFromSoup, tableLayoutFromSoup,
        relativeLayoutFromSoup, listEndsWith, listStartsWith,
        defaultParentToDevice]

/-- Witness for C6 at a concrete `FrameLayout` child. -/
theorem c6_witness :
    findChildren none emptyResourceDir ParentObj.pyNone
        [SoupChild.tag "FrameLayout" [] []] =
      findChildren none emptyResourceDir ParentObj.pyNone [] :=
  (c6_notSupported_amended ParentObj.pyNone none emptyResourceDir
      (SoupChild.text "") "FrameLayout" [] [] [] ParentObj.pyNone).2.2.2.2
    (Or.inl rfl)

/-- Python `round` lands within half a unit of its argument. -/
lemma abs_pyRound_sub_le (q : ℚ) : |(pyRound q : ℚ) - q| ≤ 1/2 := by
  have h0 : ((⌊q⌋ : ℤ) : ℚ) ≤ q := Int.floor_le q
  have h1 : q < ((⌊q⌋ : ℤ) : ℚ) + 1 := Int.lt_floor_add_one q
  unfold pyRound
  by_cases hlt : q - ((⌊q⌋ : ℤ) : ℚ) < 1/2
  · rw [if_pos hlt, abs_le]
    constructor <;> linarith
  · rw [if_neg hlt]
    by_cases hgt : (1 : ℚ)/2 < q - ((⌊q⌋ : ℤ) : ℚ)
    · rw [if_pos hgt, abs_le]
      constructor <;> push_cast <;> linarith
    · rw [if_neg hgt]
      by_cases hpar : ⌊q⌋ % 2 = 0
      · rw [if_pos hpar, abs_le]
        constructor <;> linarith [not_lt.1 hlt, not_lt.1 hgt]
      · rw [if_neg hpar, abs_le]
        constructor <;> push_cast <;> linarith [not_lt.1 hlt, not_lt.1 hgt]

/-- C7: for every inch value `x`, converting to dip and back satisfies
`abs(toInches(fromInches(x)) - x) < 1/160` — the single-unit round trip
through the integer dip representation loses less than one dip. -/
theorem c7_roundtrip (x : ℚ) :
    |dipToInches (dipFromInches x) - x| < 1/160 := by
  have h := abs_pyRound_sub_le (x * 160)
  unfold dipToInches dipFromInches
  have e : ((pyRound (x * 160) : ℤ) : ℚ) / 160 - x =
      (((pyRound (x * 160) : ℤ) : ℚ) - x * 160) / 160 := by ring
  rw [e, abs_div, show |(160 : ℚ)| = 160 from by norm_num]
  have hnn := abs_nonneg (((pyRound (x * 160) : ℤ) : ℚ) - x * 160)
  linarith

/-- C8: the claim says assigning `TableLayout.children` succeeds only for
all-`TableRow` sequences and that a non-conforming sequence fails with a
type error.  In the code the validating setter was bound to the class
attribute `_` instead of `children`, so every assignment to `.children` —
conforming or not — raises `AttributeError` ("can't set attribute"); the
`TypeError` is only reachable through the accidental `._` property, where a
conforming sequence then also dies with `AttributeError` on
`self.children = children`. -/
theorem c8_tableLayout_children_bug :
    tableLayoutSetChildren [ChildVal.other] =
      Except.error PyErr.attributeError ∧
    tableLayoutSetChildren [ChildVal.tableRow] =
      Except.error PyErr.attributeError ∧
    tableLayoutSetUnderscore [ChildVal.other] =
      Except.error PyErr.typeError ∧
    tableLayoutSetUnderscore [ChildVal.tableRow] =
      Except.error PyErr.attributeError :=
  ⟨rfl, rfl, rfl, rfl⟩

/-- C9: when neither dimension is `"wrap_content"`, `wrappable` returns the
pair `(width, height)` unchanged for every text and device and never invokes
the device's text measurement — in particular the call succeeds when the
device is Python `None`. -/
theorem c9_wrappable_passthrough (width height : String) (text : PyVal)
    (device : Option Device) (hw : width ≠ "wrap_content")
    (hh : height ≠ "wrap_content") :
    wrappable width height text device =
      Except.ok (PyVal.str width, PyVal.str height) := by
  simp [wrappable, hw, hh]

/-- Witness for C9 with no device at all. -/
theorem c9_witness :
    wrappable "48dp" "100dp" PyVal.pyNone none =
      Except.ok (PyVal.str "48dp", PyVal.str "100dp") :=
  c9_wrappable_passthrough _ _ _ _ (by decide) (by decide)

/-- C10: constructing a `Button` from a node without an `android:id`
attribute fails with a key-lookup error — the id is read by mandatory
subscript before any other attribute. -/
theorem c10_button_id_required (parent : ParentObj) (device : Option Device)
    (res : ResourceDir) (attrs : List (String × String))
    (h : lookupAttr attrs "android:id" = none) :
    buttonFromSoup parent device res attrs = Except.error PyErr.keyError := by
  simp [buttonFromSoup, subscriptAttr, h, Bind.bind, Except.bind]

/-- Witness for C10: a Button node carrying only dimensions. -/
theorem c10_witness :
    buttonFromSoup ParentObj.pyNone none emptyResourceDir
        [("android:layout_width", "48dp"),
         ("android:layout_height", "48dp")] =
      Except.error PyErr.keyError :=
  c10_button_id_required _ _ _ _ rfl

end Agile
